import Mathlib

/-!
Shallow embedding of the Financial Context Aggregation & Caching Subsystem of
the `belvo-ai-financial-coach` repository.

Conventions of the embedding:
* Go `float64` monetary amounts are modelled as rationals (`ℚ`); all the
  arithmetic the embedded code performs on them (sums of list elements,
  subtraction, division by the constant 3) is the arithmetic the source
  performs, with `time.Now()` readings made an explicit `ℤ` parameter
  (nanoseconds since the epoch, the resolution of Go's `time.Time`).
* A remote fetch outcome (`GetOwners`, `GetAccounts`, `GetTransactions`,
  `GetIncomes`, `GetRecurringExpenses`) is an `Except String (List _)`:
  the fetchers in `internal/service/belvo_service.go` return either a list
  and `nil` error or a `nil` list and a non-nil error, never both.
* A Go handler either returns a value, returns an error value to the
  framework, or panics at runtime; `GoOutcome` distinguishes the three.
* The `ContextCache` map is an association list with Go map semantics
  (insert overwrites, lookup finds the entry, delete removes it).
-/

namespace BelvoCoach

/-- Go struct `BelvoBalance` (internal/models): current and available balance of one
account. -/
structure BelvoBalance where
  current : ℚ
  available : ℚ
deriving Repr, DecidableEq

/-- Go struct `BelvoAccount` (internal/models): the fields of the source struct that the
aggregation subsystem reads. -/
structure BelvoAccount where
  id : String
  category : String
  name : String
  currency : String
  balance : BelvoBalance
deriving Repr, DecidableEq

/-- Go struct `BelvoTransaction` (internal/models): the fields the subsystem reads;
`type` is the signed classification, `"INFLOW"` or `"OUTFLOW"`. -/
structure BelvoTransaction where
  id : String
  amount : ℚ
  currency : String
  description : String
  type : String
deriving Repr, DecidableEq

/-- Go struct `BelvoOwner` (internal/models): owner identity fields the subsystem reads. -/
structure BelvoOwner where
  id : String
  displayName : String
  fullName : String
deriving Repr, DecidableEq

/-- Go struct `BelvoIncome` (internal/models): an income stream with its monthly average. -/
structure BelvoIncome where
  id : String
  monthlyAverage : ℚ
  frequency : String
deriving Repr, DecidableEq

/-- Go struct `BelvoRecurringExpense` (internal/models): a recurring expense record with
its average transaction amount. -/
structure BelvoRecurringExpense where
  id : String
  averageTransactionAmount : ℚ
deriving Repr, DecidableEq

/-- Go struct `FinancialSummary` (internal/models): the derived value object; the
`GeneratedAt` timestamp is an integer clock reading. -/
structure FinancialSummary where
  userID : String
  generatedAt : ℤ
  monthlyIncome : ℚ
  monthlyFixedExpenses : ℚ
  monthlyVariableExpenses : ℚ
  monthlySurplus : ℚ
  totalBalance : ℚ
  accounts : List BelvoAccount
  recentTransactions : List BelvoTransaction
  incomeStreams : List BelvoIncome
  recurringExpenses : List BelvoRecurringExpense
  currency : String
deriving Repr, DecidableEq

/-- The `totalBalance` accumulation loop: `for _, account := range accounts
\x7b totalBalance += account.Balance.Available \x7d` starting from `0.0`. -/
def sumAvailable (accounts : List BelvoAccount) : ℚ :=
  accounts.foldl (fun acc a => acc + a.balance.available) 0

/-- The `monthlyIncome` accumulation loop over income streams: sums
`income.MonthlyAverage` starting from `0.0`. -/
def sumMonthlyAverage (incomes : List BelvoIncome) : ℚ :=
  incomes.foldl (fun acc i => acc + i.monthlyAverage) 0

/-- The `monthlyFixedExpenses` accumulation loop of
`BelvoService.GetFinancialSummary`: sums `expense.AverageTransactionAmount`
starting from `0.0`. -/
def sumAverageTransactionAmount (expenses : List BelvoRecurringExpense) : ℚ :=
  expenses.foldl (fun acc e => acc + e.averageTransactionAmount) 0

/-- The `totalInflow` accumulator of the shared transaction loop: adds
`transaction.Amount` when `transaction.Type == "INFLOW"`.  The Go loop updates
`totalInflow` and `totalOutflow` in one pass with an `if`/`else if`; each
accumulator evolves independently of the other, so it is embedded as its own
fold. -/
def totalInflow (transactions : List BelvoTransaction) : ℚ :=
  transactions.foldl (fun acc t => if t.type = "INFLOW" then acc + t.amount else acc) 0

/-- The `totalOutflow` accumulator of the same loop: adds the amount when the
classification is `"OUTFLOW"` (the `else if` branch; `"INFLOW" ≠ "OUTFLOW"`,
so testing the classification directly is the same predicate). -/
def totalOutflow (transactions : List BelvoTransaction) : ℚ :=
  transactions.foldl (fun acc t => if t.type = "OUTFLOW" then acc + t.amount else acc) 0

/-- Constant `monthsOfData := 3.0`: the fixed 3-month window constant used to convert
window totals into monthly averages. -/
def monthsOfData : ℚ := 3

/-- Function `createFinancialSummaryFromData` (handler file, detailed-link-info path):
builds a `FinancialSummary` from already-fetched data.  `now` is the
`time.Now()` reading taken for `GeneratedAt`. -/
def createFinancialSummaryFromData (now : ℤ) (linkID : String)
    (accounts : List BelvoAccount) (transactions : List BelvoTransaction)
    (incomes : List BelvoIncome) : FinancialSummary :=
  let totalBalance := sumAvailable accounts
  let monthlyIncomeFromStreams := sumMonthlyAverage incomes
  let monthlyIncomeFromTransactions := totalInflow transactions / monthsOfData
  let monthlyExpensesFromTransactions := totalOutflow transactions / monthsOfData
  let monthlyIncome :=
    if monthlyIncomeFromStreams = 0 then monthlyIncomeFromTransactions
    else monthlyIncomeFromStreams
  let monthlyVariableExpenses := monthlyExpensesFromTransactions
  let monthlySurplus := monthlyIncome - monthlyVariableExpenses
  let currency := match accounts with
    | [] => "BRL"
    | a :: _ => a.currency
  { userID := linkID
    generatedAt := now
    monthlyIncome := monthlyIncome
    monthlyFixedExpenses := 0
    monthlyVariableExpenses := monthlyVariableExpenses
    monthlySurplus := monthlySurplus
    totalBalance := totalBalance
    accounts := accounts
    recentTransactions := transactions
    incomeStreams := incomes
    recurringExpenses := []
    currency := currency }

/-- Function `createBasicFinancialSummary`: the fallback used when the incomes fetch
fails — delegates with an empty income-stream list. -/
def createBasicFinancialSummary (now : ℤ) (linkID : String)
    (accounts : List BelvoAccount) (transactions : List BelvoTransaction) :
    FinancialSummary :=
  createFinancialSummaryFromData now linkID accounts transactions []

/-- Method `BelvoService.GetFinancialSummary` (internal/service/belvo_service.go):
the sequential summary path.  Each fetch outcome is a parameter; any fetch
error aborts the whole operation with a wrapped error, exactly as the source
returns early.  After the fetches the metric computation of lines 529–603 is
embedded: fixed expenses sum the recurring-expense records, and the
transaction-derived monthly estimates are only applied inside the
`len(transactions) > 0` guard. -/
def GetFinancialSummary (now : ℤ) (linkID : String)
    (accountsR : Except String (List BelvoAccount))
    (transactionsR : Except String (List BelvoTransaction))
    (incomesR : Except String (List BelvoIncome))
    (recurringR : Except String (List BelvoRecurringExpense)) :
    Except String FinancialSummary :=
  match accountsR with
  | .error e => .error ("failed to get accounts: " ++ e)
  | .ok accounts =>
    match transactionsR with
    | .error e => .error ("failed to get transactions: " ++ e)
    | .ok transactions =>
      match incomesR with
      | .error e => .error ("failed to get incomes: " ++ e)
      | .ok incomes =>
        match recurringR with
        | .error e => .error ("failed to get recurring expenses: " ++ e)
        | .ok recurringExpenses =>
          let totalBalance := sumAvailable accounts
          let monthlyIncomeFromStreams := sumMonthlyAverage incomes
          let monthlyFixedExpenses := sumAverageTransactionAmount recurringExpenses
          let monthlyIncome :=
            if transactions = [] then monthlyIncomeFromStreams
            else if monthlyIncomeFromStreams = 0 then totalInflow transactions / monthsOfData
            else monthlyIncomeFromStreams
          let monthlyVariableExpenses :=
            if transactions = [] then 0
            else 0 + totalOutflow transactions / monthsOfData
          let monthlySurplus := monthlyIncome - monthlyFixedExpenses - monthlyVariableExpenses
          let currency := match accounts with
            | [] => "BRL"
            | a :: _ => a.currency
          .ok { userID := linkID
                generatedAt := now
                monthlyIncome := monthlyIncome
                monthlyFixedExpenses := monthlyFixedExpenses
                monthlyVariableExpenses := monthlyVariableExpenses
                monthlySurplus := monthlySurplus
                totalBalance := totalBalance
                accounts := accounts
                recentTransactions := transactions
                incomeStreams := incomes
                recurringExpenses := recurringExpenses
                currency := currency }

/-- Outcome of running a Go handler: a returned value, an error value handed
to the framework, or a runtime panic. -/
inductive GoOutcome (α : Type) where
  | ok (val : α)
  | err (msg : String)
  | panic (msg : String)
deriving Repr, DecidableEq

/-- Go string slicing `s[:n]`: the first `n` bytes when `n ≤ len(s)`,
otherwise a runtime panic (`slice bounds out of range`). -/
def goSliceToEight (s : String) : GoOutcome String :=
  if 8 ≤ s.length then .ok (String.mk (s.toList.take 8))
  else .panic "slice bounds out of range"

/-- Replace a failed fetch by the empty list: the pattern
`xs := result.xs; if result.xsErr != nil \x7b xs = [] \x7d` (the fetchers
return a nil slice together with a non-nil error). -/
def orEmpty {α : Type} (r : Except String (List α)) : List α :=
  match r with
  | .ok l => l
  | .error _ => []

/-- The view `GetDetailedLinkInfo` returns (the response map of the handler,
restricted to its data-bearing fields; `aiShortLinkID` is the `linkID[:8]`
fragment interpolated into `ai_context_summary`). -/
structure DetailedLinkInfoResult where
  linkId : String
  ownerName : String
  accountCount : ℕ
  accounts : List BelvoAccount
  transactionCount : ℕ
  recentTransactions : List BelvoTransaction
  totalBalance : ℚ
  currency : String
  hasData : Bool
  financialSummary : FinancialSummary
  aiShortLinkID : String
  message : String
deriving Repr, DecidableEq

/-- The owner-name precedence of the "Process owner info" block: the first
owner's display name when non-empty, else its full name when non-empty, else
the `"Unknown Customer"` placeholder. -/
def selectOwnerName (owners : List BelvoOwner) : String :=
  match owners with
  | [] => "Unknown Customer"
  | o :: _ =>
    if o.displayName ≠ "" then o.displayName
    else if o.fullName ≠ "" then o.fullName
    else "Unknown Customer"

/-- Method `BelvoHandler.GetDetailedLinkInfo` (handler file): validates the path
parameter and credentials, joins the four concurrent fetches (each outcome a
parameter, as the per-goroutine writes are disjoint and the loop blocks until
all four signal `done`), and assembles the detailed view.  The numeric
`%.2f` interpolations of `ai_context_summary` are abstracted, but its
`linkID[:8]` slice — evaluated after the join, before returning — is kept,
as it can panic. -/
def GetDetailedLinkInfo (now : ℤ) (linkID secretID secretKey : String)
    (ownersR : Except String (List BelvoOwner))
    (accountsR : Except String (List BelvoAccount))
    (transactionsR : Except String (List BelvoTransaction))
    (incomesR : Except String (List BelvoIncome)) :
    GoOutcome DetailedLinkInfoResult :=
  if linkID = "" then .err "link_id parameter is required"
  else if secretID = "" ∨ secretKey = "" then .err "secret_id and secret_key are required"
  else
    let owners := orEmpty ownersR
    let ownerName := selectOwnerName owners
    let accounts := orEmpty accountsR
    let totalBalance := sumAvailable accounts
    let transactions := orEmpty transactionsR
    let hasData := decide (accounts ≠ [] ∨ transactions ≠ [])
    let financialSummary :=
      match incomesR with
      | .error _ => createBasicFinancialSummary now linkID accounts transactions
      | .ok incomes => createFinancialSummaryFromData now linkID accounts transactions incomes
    match goSliceToEight linkID with
    | .panic m => .panic m
    | .err m => .err m
    | .ok shortID =>
      .ok { linkId := linkID
            ownerName := ownerName
            accountCount := accounts.length
            accounts := accounts
            transactionCount := transactions.length
            recentTransactions := transactions
            totalBalance := totalBalance
            currency := "BRL"
            hasData := hasData
            financialSummary := financialSummary
            aiShortLinkID := shortID
            message := "Detailed analysis completed for " ++ ownerName }

/-- Go struct `CachedContext` (internal/api/ai_handler.go): one cache entry. -/
structure CachedContext where
  summary : FinancialSummary
  linkID : String
  ownerName : String
  cachedAt : ℤ
  expiresAt : ℤ
deriving Repr, DecidableEq

/-- The `contexts` map of `ContextCache`, as an association list (at most one
binding per key is maintained by the operations below). -/
def ContextCache : Type := List (String × CachedContext)

/-- Go map read `contexts[key]` with its `exists` flag collapsed into
`Option`. -/
def cacheLookup (cache : ContextCache) (key : String) : Option CachedContext :=
  match cache.find? (fun p => p.1 == key) with
  | some p => some p.2
  | none => none

/-- Go map write `contexts[key] = v`: overwrites any existing binding. -/
def cacheInsert (cache : ContextCache) (key : String) (v : CachedContext) :
    ContextCache :=
  (key, v) :: cache.filter (fun p => p.1 != key)

/-- Go map delete `delete(contexts, key)`. -/
def cacheDelete (cache : ContextCache) (key : String) : ContextCache :=
  cache.filter (fun p => p.1 != key)

/-- TTL constant `24 * time.Hour` in nanoseconds, the fixed cache TTL. -/
def cacheTTL : ℤ := 24 * 60 * 60 * 1000000000

/-- Method `AIHandler.StoreContext`: under the write lock, overwrite the entry for
`linkID` with a fresh `CachedContext` whose expiry is `now + 24h`. -/
def StoreContext (now : ℤ) (cache : ContextCache) (linkID : String)
    (summary : FinancialSummary) (ownerName : String) : ContextCache :=
  cacheInsert cache linkID
    { summary := summary
      linkID := linkID
      ownerName := ownerName
      cachedAt := now
      expiresAt := now + cacheTTL }

/-- Method `AIHandler.GetCachedContext`: under the read lock, look the key up;
return `(nil, false)` on absence; when `time.Now().After(ExpiresAt)` (strict)
delete the entry and return `(nil, false)`; otherwise return the stored
summary and `true`.  The result pairs the returned `(summary, found)` with
the cache state after the call. -/
def GetCachedContext (now : ℤ) (cache : ContextCache) (linkID : String) :
    (Option FinancialSummary × Bool) × ContextCache :=
  match cacheLookup cache linkID with
  | none => ((none, false), cache)
  | some cached =>
    if cached.expiresAt < now then ((none, false), cacheDelete cache linkID)
    else ((some cached.summary, true), cache)

/-- Method `AIHandler.CacheContextFromSummary` (POST /api/ai/cache-context): after
binding, reject a missing `link_id` or `financial_summary`; otherwise store
the *request-supplied* summary unchanged via `StoreContext`, then format the
confirmation message with `request.LinkID[:8]` — the store happens first, so
a short link id leaves the entry cached and then panics. -/
def CacheContextFromSummary (now : ℤ) (cache : ContextCache)
    (linkID ownerName : String) (summary : Option FinancialSummary) :
    GoOutcome String × ContextCache :=
  match summary with
  | none => (.err "link_id and financial_summary are required", cache)
  | some s =>
    if linkID = "" then (.err "link_id and financial_summary are required", cache)
    else
      let cache1 := StoreContext now cache linkID s ownerName
      match goSliceToEight linkID with
      | .ok shortID => (.ok ("Financial context cached for link: " ++ shortID), cache1)
      | .err m => (.err m, cache1)
      | .panic m => (.panic m, cache1)

/-- Events on the cache's `sync.RWMutex` and on the guarded map, in program
order, as emitted by one call to a cache operation. -/
inductive LockEvent where
  | acquireRead
  | releaseRead
  | acquireWrite
  | releaseWrite
  | mapRead (key : String)
  | mapWrite (key : String)
deriving Repr, DecidableEq

/-- The lock/map event trace of `AIHandler.StoreContext`: `mu.Lock()`,
the map write, `mu.Unlock()` (deferred). -/
def StoreContextEvents (linkID : String) : List LockEvent :=
  [.acquireWrite, .mapWrite linkID, .releaseWrite]

/-- The lock/map event trace of `AIHandler.GetCachedContext`: `mu.RLock()`,
the map read, then — still before the deferred `mu.RUnlock()` — a map
*delete* when the entry exists and is expired. -/
def GetCachedContextEvents (now : ℤ) (cache : ContextCache) (linkID : String) :
    List LockEvent :=
  [LockEvent.acquireRead, LockEvent.mapRead linkID] ++
    (match cacheLookup cache linkID with
     | none => []
     | some cached => if cached.expiresAt < now then [LockEvent.mapWrite linkID] else []) ++
    [LockEvent.releaseRead]

/-- Checks a trace for the writer-lock discipline: every `mapWrite` occurs
while the write side of the lock is held.  The fold threads the pair
(write lock currently held, no violation so far). -/
def writesUnderWriteLock (events : List LockEvent) : Bool :=
  (events.foldl
    (fun (st : Bool × Bool) e =>
      match e with
      | .acquireWrite => (true, st.2)
      | .releaseWrite => (false, st.2)
      | .acquireRead => st
      | .releaseRead => st
      | .mapRead _ => st
      | .mapWrite _ => (st.1, st.2 && st.1))
    (false, true)).2

/-! ### Shared sample values and helper lemmas -/

/-- An all-zero summary, as both builders produce it from empty inputs. -/
def sampleSummary : FinancialSummary :=
  { userID := "link1234"
    generatedAt := 0
    monthlyIncome := 0
    monthlyFixedExpenses := 0
    monthlyVariableExpenses := 0
    monthlySurplus := 0
    totalBalance := 0
    accounts := []
    recentTransactions := []
    incomeStreams := []
    recurringExpenses := []
    currency := "BRL" }

/-- A summary as an external caller may POST it to the cache-context
endpoint: its `totalBalance` (999) is not the sum (0) of the available
balances of its (empty) embedded account list. -/
def forgedSummary : FinancialSummary :=
  { sampleSummary with userID := "forged", totalBalance := 999 }

instance {ε α : Type} [DecidableEq ε] [DecidableEq α] : DecidableEq (Except ε α) := fun x y =>
  match x, y with
  | .ok a, .ok b =>
    if h : a = b then .isTrue (by rw [h]) else .isFalse (by simp [h])
  | .error a, .error b =>
    if h : a = b then .isTrue (by rw [h]) else .isFalse (by simp [h])
  | .ok _, .error _ => .isFalse (by simp)
  | .error _, .ok _ => .isFalse (by simp)

theorem cacheLookup_insert (cache : ContextCache) (k : String) (v : CachedContext) :
    cacheLookup (cacheInsert cache k v) k = some v := by
  simp [cacheLookup, cacheInsert, List.find?]

theorem cacheLookup_delete (cache : ContextCache) (k : String) :
    cacheLookup (cacheDelete cache k) k = none := by
  unfold cacheLookup cacheDelete
  have h : (cache.filter (fun p => p.1 != k)).find? (fun p => p.1 == k) = none := by
    rw [List.find?_eq_none]
    intro p hp
    have := List.of_mem_filter hp
    simpa using this
  rw [h]

/-! ### Claims -/

/-- C2: every `FinancialSummary` produced by either summary-construction path
(the detailed-link-info builder `createFinancialSummaryFromData` and the
service path `GetFinancialSummary`) satisfies
`monthlySurplus = monthlyIncome − monthlyFixedExpenses − monthlyVariableExpenses`
exactly, the surplus being recomputed from the other three fields. -/
theorem surplus_invariant
    (now : ℤ) (linkID : String) (accounts : List BelvoAccount)
    (transactions : List BelvoTransaction) (incomes : List BelvoIncome)
    (now' : ℤ) (linkID' : String)
    (accountsR : Except String (List BelvoAccount))
    (transactionsR : Except String (List BelvoTransaction))
    (incomesR : Except String (List BelvoIncome))
    (recurringR : Except String (List BelvoRecurringExpense))
    (s : FinancialSummary)
    (hs : GetFinancialSummary now' linkID' accountsR transactionsR incomesR recurringR =
      Except.ok s) :
    (createFinancialSummaryFromData now linkID accounts transactions incomes).monthlySurplus =
      (createFinancialSummaryFromData now linkID accounts transactions incomes).monthlyIncome -
      (createFinancialSummaryFromData now linkID accounts transactions incomes).monthlyFixedExpenses -
      (createFinancialSummaryFromData now linkID accounts transactions incomes).monthlyVariableExpenses ∧
    s.monthlySurplus = s.monthlyIncome - s.monthlyFixedExpenses - s.monthlyVariableExpenses := by
  constructor
  · simp [createFinancialSummaryFromData]
  · cases accountsR with
    | error e => simp [GetFinancialSummary] at hs
    | ok accounts' =>
      cases transactionsR with
      | error e => simp [GetFinancialSummary] at hs
      | ok transactions' =>
        cases incomesR with
        | error e => simp [GetFinancialSummary] at hs
        | ok incomes' =>
          cases recurringR with
          | error e => simp [GetFinancialSummary] at hs
          | ok recurring' =>
            simp only [GetFinancialSummary, Except.ok.injEq] at hs
            subst hs
            rfl

/-- Closed witness for C2: both paths evaluated at concrete inputs. -/
theorem surplus_invariant_witness :
    (createFinancialSummaryFromData 0 "link1234" [] [] []).monthlySurplus =
      (createFinancialSummaryFromData 0 "link1234" [] [] []).monthlyIncome -
      (createFinancialSummaryFromData 0 "link1234" [] [] []).monthlyFixedExpenses -
      (createFinancialSummaryFromData 0 "link1234" [] [] []).monthlyVariableExpenses ∧
    sampleSummary.monthlySurplus = sampleSummary.monthlyIncome -
      sampleSummary.monthlyFixedExpenses - sampleSummary.monthlyVariableExpenses :=
  surplus_invariant 0 "link1234" [] [] [] 0 "link1234"
    (Except.ok []) (Except.ok []) (Except.ok []) (Except.ok []) sampleSummary
    (by norm_num [GetFinancialSummary, sampleSummary, sumAvailable, sumMonthlyAverage,
      sumAverageTransactionAmount, totalInflow, totalOutflow, monthsOfData])

/-- C5: in every summary built by either path, `monthlyIncome` equals the sum
of `monthlyAverage` over the income streams when that sum is nonzero, and
otherwise equals `totalInflow / 3` (the fixed 3-month window constant), hence
0 with no transactions and no income streams. -/
theorem monthlyIncome_policy
    (now : ℤ) (linkID : String) (accounts : List BelvoAccount)
    (transactions : List BelvoTransaction) (incomes : List BelvoIncome)
    (now' : ℤ) (linkID' : String)
    (accountsR : Except String (List BelvoAccount))
    (transactionsR : Except String (List BelvoTransaction))
    (incomesR : Except String (List BelvoIncome))
    (recurringR : Except String (List BelvoRecurringExpense))
    (s : FinancialSummary)
    (hs : GetFinancialSummary now' linkID' accountsR transactionsR incomesR recurringR =
      Except.ok s) :
    ((sumMonthlyAverage incomes ≠ 0 →
        (createFinancialSummaryFromData now linkID accounts transactions incomes).monthlyIncome =
          sumMonthlyAverage incomes) ∧
     (sumMonthlyAverage incomes = 0 →
        (createFinancialSummaryFromData now linkID accounts transactions incomes).monthlyIncome =
          totalInflow transactions / monthsOfData)) ∧
    ((sumMonthlyAverage s.incomeStreams ≠ 0 →
        s.monthlyIncome = sumMonthlyAverage s.incomeStreams) ∧
     (sumMonthlyAverage s.incomeStreams = 0 →
        s.monthlyIncome = totalInflow s.recentTransactions / monthsOfData)) := by
  constructor
  · constructor
    · intro h
      simp [createFinancialSummaryFromData, h]
    · intro h
      simp [createFinancialSummaryFromData, h]
  · cases accountsR with
    | error e => simp [GetFinancialSummary] at hs
    | ok accounts' =>
      cases transactionsR with
      | error e => simp [GetFinancialSummary] at hs
      | ok transactions' =>
        cases incomesR with
        | error e => simp [GetFinancialSummary] at hs
        | ok incomes' =>
          cases recurringR with
          | error e => simp [GetFinancialSummary] at hs
          | ok recurring' =>
            simp only [GetFinancialSummary, Except.ok.injEq] at hs
            subst hs
            constructor
            · intro h
              by_cases ht : transactions' = [] <;> simp [ht, h]
            · intro h
              by_cases ht : transactions' = [] <;>
                simp [ht, h, totalInflow, monthsOfData]

/-- Closed witness for C5: both paths evaluated at concrete inputs. -/
theorem monthlyIncome_policy_witness :
    ((sumMonthlyAverage [] ≠ 0 →
        (createFinancialSummaryFromData 0 "link1234" [] [] []).monthlyIncome =
          sumMonthlyAverage []) ∧
     (sumMonthlyAverage [] = 0 →
        (createFinancialSummaryFromData 0 "link1234" [] [] []).monthlyIncome =
          totalInflow [] / monthsOfData)) ∧
    ((sumMonthlyAverage sampleSummary.incomeStreams ≠ 0 →
        sampleSummary.monthlyIncome = sumMonthlyAverage sampleSummary.incomeStreams) ∧
     (sumMonthlyAverage sampleSummary.incomeStreams = 0 →
        sampleSummary.monthlyIncome =
          totalInflow sampleSummary.recentTransactions / monthsOfData)) :=
  monthlyIncome_policy 0 "link1234" [] [] [] 0 "link1234"
    (Except.ok []) (Except.ok []) (Except.ok []) (Except.ok []) sampleSummary
    (by norm_num [GetFinancialSummary, sampleSummary, sumAvailable, sumMonthlyAverage,
      sumAverageTransactionAmount, totalInflow, totalOutflow, monthsOfData])

/-- C9 counterexample: the claim demands byte-identical output across two
calls *including the generation timestamp*, but the builder stamps each run
with `time.Now()`: two runs at distinct clock readings differ. -/
theorem summary_builder_not_clock_independent :
    createFinancialSummaryFromData 0 "link1234" [] [] [] ≠
      createFinancialSummaryFromData 1 "link1234" [] [] [] ∧
    (createFinancialSummaryFromData 0 "link1234" [] [] []).generatedAt ≠
      (createFinancialSummaryFromData 1 "link1234" [] [] []).generatedAt := by
  decide

/-- C9 amended: the builder is a pure function of its inputs and the clock
reading; across two runs at arbitrary clock readings every field except
`generatedAt` coincides, and `generatedAt` is exactly the clock reading. -/
theorem summary_builder_deterministic_modulo_timestamp
    (t1 t2 : ℤ) (linkID : String) (accounts : List BelvoAccount)
    (transactions : List BelvoTransaction) (incomes : List BelvoIncome) :
    (createFinancialSummaryFromData t1 linkID accounts transactions incomes).userID =
      (createFinancialSummaryFromData t2 linkID accounts transactions incomes).userID ∧
    (createFinancialSummaryFromData t1 linkID accounts transactions incomes).monthlyIncome =
      (createFinancialSummaryFromData t2 linkID accounts transactions incomes).monthlyIncome ∧
    (createFinancialSummaryFromData t1 linkID accounts transactions incomes).monthlyFixedExpenses =
      (createFinancialSummaryFromData t2 linkID accounts transactions incomes).monthlyFixedExpenses ∧
    (createFinancialSummaryFromData t1 linkID accounts transactions incomes).monthlyVariableExpenses =
      (createFinancialSummaryFromData t2 linkID accounts transactions incomes).monthlyVariableExpenses ∧
    (createFinancialSummaryFromData t1 linkID accounts transactions incomes).monthlySurplus =
      (createFinancialSummaryFromData t2 linkID accounts transactions incomes).monthlySurplus ∧
    (createFinancialSummaryFromData t1 linkID accounts transactions incomes).totalBalance =
      (createFinancialSummaryFromData t2 linkID accounts transactions incomes).totalBalance ∧
    (createFinancialSummaryFromData t1 linkID accounts transactions incomes).accounts =
      (createFinancialSummaryFromData t2 linkID accounts transactions incomes).accounts ∧
    (createFinancialSummaryFromData t1 linkID accounts transactions incomes).recentTransactions =
      (createFinancialSummaryFromData t2 linkID accounts transactions incomes).recentTransactions ∧
    (createFinancialSummaryFromData t1 linkID accounts transactions incomes).incomeStreams =
      (createFinancialSummaryFromData t2 linkID accounts transactions incomes).incomeStreams ∧
    (createFinancialSummaryFromData t1 linkID accounts transactions incomes).recurringExpenses =
      (createFinancialSummaryFromData t2 linkID accounts transactions incomes).recurringExpenses ∧
    (createFinancialSummaryFromData t1 linkID accounts transactions incomes).currency =
      (createFinancialSummaryFromData t2 linkID accounts transactions incomes).currency ∧
    (createFinancialSummaryFromData t1 linkID accounts transactions incomes).generatedAt = t1 ∧
    (createFinancialSummaryFromData t2 linkID accounts transactions incomes).generatedAt = t2 := by
  refine ⟨rfl, rfl, rfl, rfl, rfl, rfl, rfl, rfl, rfl, rfl, rfl, rfl, rfl⟩

/-- C3 counterexample: the context cache surfaces externally supplied
summaries unvalidated.  The cache-context endpoint stores `forgedSummary`
(total balance 999, no embedded accounts); the subsequent lookup returns it
with `found = true`, yet its `totalBalance` is not the sum of the available
balances of its own embedded accounts. -/
theorem cached_summary_breaks_balance_invariant :
    (GetCachedContext 1
        (CacheContextFromSummary 0 [] "link1234" "Owner" (some forgedSummary)).2
        "link1234").1 = (some forgedSummary, true) ∧
    forgedSummary.totalBalance ≠ sumAvailable forgedSummary.accounts := by
  constructor
  · rfl
  · norm_num [forgedSummary, sampleSummary, sumAvailable]

/-- C3 amended: every summary *built by either summary-construction path*
has `totalBalance` equal to the sum of the `available` balances of the
accounts embedded in that same summary (0 for the empty account list); a
summary surfaced from the context cache is returned as stored and may carry
an externally supplied `totalBalance`. -/
theorem totalBalance_invariant_of_builders
    (now : ℤ) (linkID : String) (accounts : List BelvoAccount)
    (transactions : List BelvoTransaction) (incomes : List BelvoIncome)
    (now' : ℤ) (linkID' : String)
    (accountsR : Except String (List BelvoAccount))
    (transactionsR : Except String (List BelvoTransaction))
    (incomesR : Except String (List BelvoIncome))
    (recurringR : Except String (List BelvoRecurringExpense))
    (s : FinancialSummary)
    (hs : GetFinancialSummary now' linkID' accountsR transactionsR incomesR recurringR =
      Except.ok s) :
    (createFinancialSummaryFromData now linkID accounts transactions incomes).totalBalance =
      sumAvailable (createFinancialSummaryFromData now linkID accounts transactions incomes).accounts ∧
    s.totalBalance = sumAvailable s.accounts ∧
    sumAvailable [] = 0 := by
  refine ⟨rfl, ?_, rfl⟩
  cases accountsR with
  | error e => simp [GetFinancialSummary] at hs
  | ok accounts' =>
    cases transactionsR with
    | error e => simp [GetFinancialSummary] at hs
    | ok transactions' =>
      cases incomesR with
      | error e => simp [GetFinancialSummary] at hs
      | ok incomes' =>
        cases recurringR with
        | error e => simp [GetFinancialSummary] at hs
        | ok recurring' =>
          simp only [GetFinancialSummary, Except.ok.injEq] at hs
          subst hs
          rfl

/-- Closed witness for the amended C3. -/
theorem totalBalance_invariant_of_builders_witness :
    (createFinancialSummaryFromData 0 "link1234" [] [] []).totalBalance =
      sumAvailable (createFinancialSummaryFromData 0 "link1234" [] [] []).accounts ∧
    sampleSummary.totalBalance = sumAvailable sampleSummary.accounts ∧
    sumAvailable [] = 0 :=
  totalBalance_invariant_of_builders 0 "link1234" [] [] [] 0 "link1234"
    (Except.ok []) (Except.ok []) (Except.ok []) (Except.ok []) sampleSummary
    (by norm_num [GetFinancialSummary, sampleSummary, sumAvailable, sumMonthlyAverage,
      sumAverageTransactionAmount, totalInflow, totalOutflow, monthsOfData])

/-- C4: after a `StoreContext` at time `s`, a `GetCachedContext` at a time
`t` before the 24-hour TTL has elapsed returns the originally stored summary
with `found = true` and leaves the cache unchanged; a lookup after the expiry
timestamp has passed returns `found = false`, evicts the entry, and leaves no
binding for the key — indistinguishable from never having been cached. -/
theorem cache_ttl_roundtrip (cache : ContextCache) (linkID ownerName : String)
    (summary : FinancialSummary) (s t : ℤ) :
    (t - s < cacheTTL →
      (GetCachedContext t (StoreContext s cache linkID summary ownerName) linkID).1 =
        (some summary, true) ∧
      (GetCachedContext t (StoreContext s cache linkID summary ownerName) linkID).2 =
        StoreContext s cache linkID summary ownerName) ∧
    (s + cacheTTL < t →
      (GetCachedContext t (StoreContext s cache linkID summary ownerName) linkID).1 =
        (none, false) ∧
      cacheLookup
        (GetCachedContext t (StoreContext s cache linkID summary ownerName) linkID).2
        linkID = none) := by
  have hl : cacheLookup (StoreContext s cache linkID summary ownerName) linkID =
      some { summary := summary, linkID := linkID, ownerName := ownerName,
             cachedAt := s, expiresAt := s + cacheTTL } :=
    cacheLookup_insert cache linkID _
  constructor
  · intro ht
    have hnot : ¬ (s + cacheTTL < t) := by omega
    simp only [GetCachedContext, hl]
    rw [if_neg hnot]
    exact ⟨rfl, rfl⟩
  · intro ht
    simp only [GetCachedContext, hl]
    rw [if_pos ht]
    exact ⟨rfl, cacheLookup_delete _ _⟩

/-- Closed witness for C4: a hit one nanosecond after the store, a miss one
nanosecond after expiry. -/
theorem cache_ttl_roundtrip_witness :
    (GetCachedContext 1 (StoreContext 0 [] "link1234" sampleSummary "Owner") "link1234").1 =
      (some sampleSummary, true) ∧
    (GetCachedContext (cacheTTL + 1) (StoreContext 0 [] "link1234" sampleSummary "Owner")
        "link1234").1 = (none, false) :=
  ⟨((cache_ttl_roundtrip [] "link1234" "Owner" sampleSummary 0 1).1
      (by norm_num [cacheTTL])).1,
   ((cache_ttl_roundtrip [] "link1234" "Owner" sampleSummary 0 (cacheTTL + 1)).2
      (by norm_num [cacheTTL])).1⟩

/-- C8: the code panics instead of returning a financial picture when the
link identifier is shorter than 8 bytes: `GetDetailedLinkInfo` slices
`linkID[:8]` into its AI context string even though all four fetches were
absorbed, and `CacheContextFromSummary` slices `request.LinkID[:8]` for its
confirmation message — after having already stored the entry. -/
theorem short_link_id_panics :
    GetDetailedLinkInfo 0 "abc" "sid" "skey" (Except.error "boom") (Except.error "boom")
        (Except.error "boom") (Except.error "boom") =
      GoOutcome.panic "slice bounds out of range" ∧
    (CacheContextFromSummary 0 [] "abc" "Owner" (some sampleSummary)).1 =
      GoOutcome.panic "slice bounds out of range" ∧
    (CacheContextFromSummary 0 [] "abc" "Owner" (some sampleSummary)).2 =
      StoreContext 0 [] "abc" sampleSummary "Owner" :=
  ⟨rfl, rfl, rfl⟩

/-- A one-entry cache whose entry expired at instant 0. -/
def expiredEntryCache : ContextCache :=
  [("link1234",
    { summary := sampleSummary, linkID := "link1234", ownerName := "Owner",
      cachedAt := 0, expiresAt := 0 })]

/-- C10: the expiry-triggered deletion of `GetCachedContext` mutates the map
while holding only the read side of the `sync.RWMutex`: on an expired entry
the call's trace performs its `mapWrite` between `RLock` and `RUnlock`, so
the write-lock discipline check fails, whereas `StoreContext` (for every
key) does mutate under the write lock. -/
theorem expiry_delete_under_read_lock_only :
    GetCachedContextEvents 1 expiredEntryCache "link1234" =
      [LockEvent.acquireRead, LockEvent.mapRead "link1234", LockEvent.mapWrite "link1234",
        LockEvent.releaseRead] ∧
    writesUnderWriteLock (GetCachedContextEvents 1 expiredEntryCache "link1234") = false ∧
    (∀ linkID : String, writesUnderWriteLock (StoreContextEvents linkID) = true) :=
  ⟨rfl, rfl, fun _ => rfl⟩

/-- Shape of a `GetDetailedLinkInfo` run with a well-formed request: with a
link identifier of at least 8 bytes and non-empty credentials the handler
returns `ok` — whatever the four fetch outcomes were. -/
theorem GetDetailedLinkInfo_ok (now : ℤ) (linkID secretID secretKey : String)
    (ownersR : Except String (List BelvoOwner))
    (accountsR : Except String (List BelvoAccount))
    (transactionsR : Except String (List BelvoTransaction))
    (incomesR : Except String (List BelvoIncome))
    (h8 : 8 ≤ linkID.length) (hsid : secretID ≠ "") (hskey : secretKey ≠ "") :
    GetDetailedLinkInfo now linkID secretID secretKey ownersR accountsR transactionsR incomesR =
      GoOutcome.ok
        { linkId := linkID
          ownerName := selectOwnerName (orEmpty ownersR)
          accountCount := (orEmpty accountsR).length
          accounts := orEmpty accountsR
          transactionCount := (orEmpty transactionsR).length
          recentTransactions := orEmpty transactionsR
          totalBalance := sumAvailable (orEmpty accountsR)
          currency := "BRL"
          hasData := decide (orEmpty accountsR ≠ [] ∨ orEmpty transactionsR ≠ [])
          financialSummary :=
            match incomesR with
            | .error _ =>
              createBasicFinancialSummary now linkID (orEmpty accountsR) (orEmpty transactionsR)
            | .ok incomes =>
              createFinancialSummaryFromData now linkID (orEmpty accountsR)
                (orEmpty transactionsR) incomes
          aiShortLinkID := String.mk (linkID.toList.take 8)
          message := "Detailed analysis completed for " ++ selectOwnerName (orEmpty ownersR) } := by
  have hne : linkID ≠ "" := by
    intro h
    subst h
    exact absurd h8 (by decide)
  have hcred : ¬ (secretID = "" ∨ secretKey = "") := by
    rintro (h | h)
    · exact hsid h
    · exact hskey h
  have hslice : goSliceToEight linkID = GoOutcome.ok (String.mk (linkID.toList.take 8)) := by
    unfold goSliceToEight
    rw [if_pos h8]
  simp only [GetDetailedLinkInfo]
  rw [if_neg hne, if_neg hcred, hslice]

/-- C1: with a well-formed request, every combination of per-resource fetch
outcomes yields an `ok` composite result: failed accounts/transactions
fetches are replaced by the empty list, a failed incomes fetch routes to the
basic-summary path, and when all four fetches fail the result is still a
complete summary with all monetary fields zero and `hasData = false`. -/
theorem detailed_link_info_absorbs_fetch_failures
    (now : ℤ) (linkID secretID secretKey : String)
    (ownersR : Except String (List BelvoOwner))
    (accountsR : Except String (List BelvoAccount))
    (transactionsR : Except String (List BelvoTransaction))
    (incomesR : Except String (List BelvoIncome))
    (eo ea et ei : String)
    (h8 : 8 ≤ linkID.length) (hsid : secretID ≠ "") (hskey : secretKey ≠ "") :
    (∃ r : DetailedLinkInfoResult,
      GetDetailedLinkInfo now linkID secretID secretKey ownersR accountsR transactionsR
          incomesR = GoOutcome.ok r ∧
      r.accounts = orEmpty accountsR ∧
      r.recentTransactions = orEmpty transactionsR ∧
      r.financialSummary =
        (match incomesR with
         | .error _ =>
           createBasicFinancialSummary now linkID (orEmpty accountsR) (orEmpty transactionsR)
         | .ok incomes =>
           createFinancialSummaryFromData now linkID (orEmpty accountsR)
             (orEmpty transactionsR) incomes)) ∧
    (∃ r : DetailedLinkInfoResult,
      GetDetailedLinkInfo now linkID secretID secretKey (Except.error eo) (Except.error ea)
          (Except.error et) (Except.error ei) = GoOutcome.ok r ∧
      r.hasData = false ∧
      r.totalBalance = 0 ∧
      r.financialSummary.monthlyIncome = 0 ∧
      r.financialSummary.monthlyFixedExpenses = 0 ∧
      r.financialSummary.monthlyVariableExpenses = 0 ∧
      r.financialSummary.monthlySurplus = 0 ∧
      r.financialSummary.totalBalance = 0) := by
  constructor
  · exact ⟨_, GetDetailedLinkInfo_ok now linkID secretID secretKey ownersR accountsR
      transactionsR incomesR h8 hsid hskey, rfl, rfl, rfl⟩
  · refine ⟨_, GetDetailedLinkInfo_ok now linkID secretID secretKey (Except.error eo)
      (Except.error ea) (Except.error et) (Except.error ei) h8 hsid hskey,
      rfl, rfl, ?_, rfl, ?_, ?_, ?_⟩
    · norm_num [createBasicFinancialSummary, createFinancialSummaryFromData, orEmpty,
        sumMonthlyAverage, sumAvailable, totalInflow, totalOutflow, monthsOfData]
    · norm_num [createBasicFinancialSummary, createFinancialSummaryFromData, orEmpty,
        sumMonthlyAverage, sumAvailable, totalInflow, totalOutflow, monthsOfData]
    · norm_num [createBasicFinancialSummary, createFinancialSummaryFromData, orEmpty,
        sumMonthlyAverage, sumAvailable, totalInflow, totalOutflow, monthsOfData]
    · norm_num [createBasicFinancialSummary, createFinancialSummaryFromData, orEmpty,
        sumMonthlyAverage, sumAvailable, totalInflow, totalOutflow, monthsOfData]

/-- The concrete result of a successful detailed-info call in which all four
fetches succeed with empty lists. -/
def emptyDetailedResult : DetailedLinkInfoResult :=
  { linkId := "link1234"
    ownerName := "Unknown Customer"
    accountCount := 0
    accounts := []
    transactionCount := 0
    recentTransactions := []
    totalBalance := 0
    currency := "BRL"
    hasData := false
    financialSummary := createFinancialSummaryFromData 0 "link1234" [] [] []
    aiShortLinkID := "link1234"
    message := "Detailed analysis completed for Unknown Customer" }

/-- Closed witness for C1: a well-formed request with all fetches succeeding
empty, and the same request with all four fetches failing. -/
theorem detailed_link_info_absorbs_fetch_failures_witness :
    (∃ r : DetailedLinkInfoResult,
      GetDetailedLinkInfo 0 "link1234" "sid" "skey" (Except.ok []) (Except.ok [])
          (Except.ok []) (Except.ok []) = GoOutcome.ok r ∧
      r.accounts = orEmpty (Except.ok ([] : List BelvoAccount)) ∧
      r.recentTransactions = orEmpty (Except.ok ([] : List BelvoTransaction)) ∧
      r.financialSummary =
        (match (Except.ok ([] : List BelvoIncome) : Except String (List BelvoIncome)) with
         | .error _ =>
           createBasicFinancialSummary 0 "link1234"
             (orEmpty (Except.ok ([] : List BelvoAccount)))
             (orEmpty (Except.ok ([] : List BelvoTransaction)))
         | .ok incomes =>
           createFinancialSummaryFromData 0 "link1234"
             (orEmpty (Except.ok ([] : List BelvoAccount)))
             (orEmpty (Except.ok ([] : List BelvoTransaction))) incomes)) ∧
    (∃ r : DetailedLinkInfoResult,
      GetDetailedLinkInfo 0 "link1234" "sid" "skey" (Except.error "e1") (Except.error "e2")
          (Except.error "e3") (Except.error "e4") = GoOutcome.ok r ∧
      r.hasData = false ∧
      r.totalBalance = 0 ∧
      r.financialSummary.monthlyIncome = 0 ∧
      r.financialSummary.monthlyFixedExpenses = 0 ∧
      r.financialSummary.monthlyVariableExpenses = 0 ∧
      r.financialSummary.monthlySurplus = 0 ∧
      r.financialSummary.totalBalance = 0) :=
  detailed_link_info_absorbs_fetch_failures 0 "link1234" "sid" "skey"
    (Except.ok []) (Except.ok []) (Except.ok []) (Except.ok []) "e1" "e2" "e3" "e4"
    (by decide) (by decide) (by decide)

/-- C6: for every aggregation result the orchestration entry point returns,
`hasData` is true iff at least one account or one transaction was retrieved
(failed fetches already replaced by empty lists) — in particular false when
both lists are empty regardless of the owners and incomes outcomes. -/
theorem hasData_iff_retrieved
    (now : ℤ) (linkID secretID secretKey : String)
    (ownersR : Except String (List BelvoOwner))
    (accountsR : Except String (List BelvoAccount))
    (transactionsR : Except String (List BelvoTransaction))
    (incomesR : Except String (List BelvoIncome))
    (r : DetailedLinkInfoResult)
    (h8 : 8 ≤ linkID.length) (hsid : secretID ≠ "") (hskey : secretKey ≠ "")
    (hr : GetDetailedLinkInfo now linkID secretID secretKey ownersR accountsR transactionsR
      incomesR = GoOutcome.ok r) :
    r.hasData = true ↔ (orEmpty accountsR ≠ [] ∨ orEmpty transactionsR ≠ []) := by
  rw [GetDetailedLinkInfo_ok now linkID secretID secretKey ownersR accountsR transactionsR
    incomesR h8 hsid hskey] at hr
  simp only [GoOutcome.ok.injEq] at hr
  subst hr
  simp [decide_eq_true_eq]

/-- Closed witness for C6: the all-empty successful run has `hasData = false`. -/
theorem hasData_iff_retrieved_witness :
    emptyDetailedResult.hasData = true ↔
      (orEmpty (Except.ok ([] : List BelvoAccount)) ≠ [] ∨
       orEmpty (Except.ok ([] : List BelvoTransaction)) ≠ []) :=
  hasData_iff_retrieved 0 "link1234" "sid" "skey" (Except.ok []) (Except.ok [])
    (Except.ok []) (Except.ok []) emptyDetailedResult (by decide) (by decide) (by decide)
    (by rfl)

/-- C7 counterexample: `GetDetailedLinkInfo` performs no cache store — the
belvo handler has no access to the AI handler's context cache.  With the
cache empty, a successful detailed-info call completes, yet the immediately
following `GetCachedContext` for the same link yields `found = false`. -/
theorem detailed_info_does_not_populate_cache :
    GetDetailedLinkInfo 0 "link1234" "sid" "skey" (Except.ok []) (Except.ok [])
        (Except.ok []) (Except.ok []) = GoOutcome.ok emptyDetailedResult ∧
    (GetCachedContext 0 ([] : ContextCache) "link1234").1 = (none, false) :=
  ⟨rfl, rfl⟩

/-- C7 amended: the orchestration entry point does not itself store the
derived summary; the cache is populated by the separate cache-context
endpoint.  Once the caller posts the summary a successful detailed-info call
returned, a lookup before the TTL elapses yields `found = true` with exactly
that summary. -/
theorem cache_populated_only_by_cache_context
    (now t : ℤ) (cache : ContextCache)
    (linkID secretID secretKey ownerName : String)
    (ownersR : Except String (List BelvoOwner))
    (accountsR : Except String (List BelvoAccount))
    (transactionsR : Except String (List BelvoTransaction))
    (incomesR : Except String (List BelvoIncome))
    (r : DetailedLinkInfoResult)
    (h8 : 8 ≤ linkID.length) (hsid : secretID ≠ "") (hskey : secretKey ≠ "")
    (hr : GetDetailedLinkInfo now linkID secretID secretKey ownersR accountsR transactionsR
      incomesR = GoOutcome.ok r)
    (ht : t - now < cacheTTL) :
    (GetCachedContext t
        (CacheContextFromSummary now cache linkID ownerName (some r.financialSummary)).2
        linkID).1 = (some r.financialSummary, true) := by
  have hne : linkID ≠ "" := by
    intro h
    subst h
    exact absurd h8 (by decide)
  have hslice : goSliceToEight linkID = GoOutcome.ok (String.mk (linkID.toList.take 8)) := by
    unfold goSliceToEight
    rw [if_pos h8]
  have hstore : (CacheContextFromSummary now cache linkID ownerName
      (some r.financialSummary)).2 = StoreContext now cache linkID r.financialSummary ownerName := by
    simp only [CacheContextFromSummary]
    rw [if_neg hne, hslice]
  rw [hstore]
  have hl : cacheLookup (StoreContext now cache linkID r.financialSummary ownerName) linkID =
      some { summary := r.financialSummary, linkID := linkID, ownerName := ownerName,
             cachedAt := now, expiresAt := now + cacheTTL } :=
    cacheLookup_insert cache linkID _
  have hnot : ¬ (now + cacheTTL < t) := by omega
  simp only [GetCachedContext, hl]
  rw [if_neg hnot]

/-- Closed witness for the amended C7: the all-empty successful run's summary
is posted, then found in the cache one nanosecond later. -/
theorem cache_populated_only_by_cache_context_witness :
    (GetCachedContext 1
        (CacheContextFromSummary 0 [] "link1234" "Owner"
          (some emptyDetailedResult.financialSummary)).2
        "link1234").1 = (some emptyDetailedResult.financialSummary, true) :=
  cache_populated_only_by_cache_context 0 1 [] "link1234" "sid" "skey" "Owner"
    (Except.ok []) (Except.ok []) (Except.ok []) (Except.ok []) emptyDetailedResult
    (by decide) (by decide) (by decide) (by rfl) (by norm_num [cacheTTL])

end BelvoCoach
